import Mathlib

/-!
Verification of the ship-playback core: the time-synchronization registry
(TimeSyncController), the per-entity trajectory store (MultiShipManager) and
the per-tick snapshot construction (updateAllShipsPositions).

Modelling conventions for the shallow embedding:
* JS numbers are exact rationals; real numbers are used where trigonometry is
  involved (bearing computation).  NaN/Infinity do not occur in this idealised
  model, so the defensive isNaN/isFinite guards of the source are identities.
* JS Date values are integer epoch milliseconds; an invalid Date is `none`.
* A point's `postime` field holds the already-parsed timestamp
  (`parseTime(point.postime)`), `none` when the raw string does not parse.
* JS truthiness on numbers: 0 is falsy; on strings: "" is falsy; on objects:
  null is falsy.  The helpers qOr/qOr2/qKeep/sKeep/sOr2 model `a || b` chains.
* Maps are association lists whose key lists are duplicate-free.
-/

namespace Ship

/-- JS `o || d` for an optional number: `none` and `0` are falsy. -/
def qOr (o : Option ℚ) (d : ℚ) : ℚ :=
  match o with
  | some x => if x = 0 then d else x
  | none => d

/-- JS truthiness of an optional number. -/
def qTruthy (o : Option ℚ) : Bool :=
  match o with
  | some x => decide (x ≠ 0)
  | none => false

/-- JS `o || null` for an optional number. -/
def qKeep (o : Option ℚ) : Option ℚ :=
  if qTruthy o then o else none

/-- JS `a || b || null` for optional numbers. -/
def qOr2 (a b : Option ℚ) : Option ℚ :=
  if qTruthy a then a else qKeep b

/-- JS truthiness of an optional string: `none` and `""` are falsy. -/
def sTruthy (o : Option String) : Bool :=
  match o with
  | some s => decide (s ≠ "")
  | none => false

/-- JS `o || null` for an optional string. -/
def sKeep (o : Option String) : Option String :=
  if sTruthy o then o else none

/-- JS `a || b || null` for optional strings. -/
def sOr2 (a b : Option String) : Option String :=
  if sTruthy a then a else sKeep b

/-- A raw trajectory point as stored in a ship's `trajectory` array. -/
structure Point where
  lon : Option ℚ := none
  lng : Option ℚ := none
  lat : Option ℚ := none
  postime : Option ℤ := none
  timestamp : Option ℤ := none
  speed : Option ℚ := none
  rot : Option ℚ := none
  draught : Option ℚ := none
  status : Option ℚ := none
  dest : Option String := none
  eta : Option String := none
  vesselTypeF : Option String := none
  flagCtryF : Option String := none
deriving DecidableEq

/-- Default point used for out-of-range array reads (never reached on the
guarded paths of the source). -/
def dfltPoint : Point := {}

/-- Effective longitude: `point.lon || point.lng || 0` from the source. -/
def effLng (p : Point) : ℚ := qOr p.lon (qOr p.lng 0)

/-- Effective latitude: `point.lat || 0` from the source. -/
def effLat (p : Point) : ℚ := qOr p.lat 0

/-- The position record produced by formatPosition / interpolatePosition. -/
structure Position where
  lng : ℚ
  lat : ℚ
  lon : ℚ
  hdg : ℝ
  cog : ℝ
  timestamp : Option ℤ
  speed : ℚ
  rot : ℚ
  draught : Option ℚ
  status : Option ℚ
  dest : Option String
  eta : Option String
  vesselTypeF : Option String
  flagCtryF : Option String

/-- MultiShipManager.formatPosition: coordinates with all heading fields
zeroed (direction is recomputed by callers from neighbouring points). -/
def formatPosition (point : Point) : Position :=
  { lng := effLng point
    lat := effLat point
    lon := effLng point
    hdg := 0
    cog := 0
    timestamp := point.postime.orElse (fun _ => point.timestamp)
    speed := qOr point.speed 0
    rot := qOr point.rot 0
    draught := qKeep point.draught
    status := qKeep point.status
    dest := sKeep point.dest
    eta := sKeep point.eta
    vesselTypeF := sKeep point.vesselTypeF
    flagCtryF := sKeep point.flagCtryF }

/-- Truncation toward zero of a real, modelling the implicit truncation in the
JS remainder operator. -/
noncomputable def rtrunc (x : ℝ) : ℤ :=
  if 0 ≤ x then ⌊x⌋ else ⌈x⌉

/-- JS remainder `a % b` on (finite) numbers: `a - b * trunc (a / b)`. -/
noncomputable def jsFmod (a b : ℝ) : ℝ :=
  a - b * rtrunc (a / b)

/-- Math.atan2 on finite inputs. -/
noncomputable def jsAtan2 (y x : ℝ) : ℝ :=
  if 0 < x then Real.arctan (y / x)
  else if x < 0 then
    (if 0 ≤ y then Real.arctan (y / x) + Real.pi else Real.arctan (y / x) - Real.pi)
  else
    (if 0 < y then Real.pi / 2 else if y < 0 then -(Real.pi / 2) else 0)

/-- MultiShipManager.calculateDirection: initial great-circle bearing from
point1 to point2 in degrees.  The final isNaN/isFinite guard of the source is
the identity in this NaN-free model. -/
noncomputable def calculateDirection (point1 point2 : Point) : ℝ :=
  let lng1 := effLng point1
  let lat1 := effLat point1
  let lng2 := effLng point2
  let lat2 := effLat point2
  if lng1 = lng2 ∧ lat1 = lat2 then 0
  else
    let lat1Rad : ℝ := (lat1 : ℝ) * Real.pi / 180
    let lat2Rad : ℝ := (lat2 : ℝ) * Real.pi / 180
    let deltaLng : ℝ := ((lng2 : ℝ) - (lng1 : ℝ)) * Real.pi / 180
    let y := Real.sin deltaLng * Real.cos lat2Rad
    let x := Real.cos lat1Rad * Real.sin lat2Rad -
      Real.sin lat1Rad * Real.cos lat2Rad * Real.cos deltaLng
    let bearingDeg := jsAtan2 y x * 180 / Real.pi
    jsFmod (bearingDeg + 360) 360

/-- Decimal rounding of `toFixed(6)` followed by parseFloat: round half away
from the smaller value, i.e. `floor (x * 10^6 + 1/2) / 10^6`. -/
def round6 (x : ℚ) : ℚ :=
  (round (x * 1000000) : ℚ) / 1000000

/-- MultiShipManager.interpolatePosition on two (non-null) points. -/
noncomputable def interpolatePosition (point1 point2 : Point) (progress : ℚ) : Position :=
  let pr := max 0 (min 1 progress)
  let lngv := effLng point1 + (effLng point2 - effLng point1) * pr
  let latv := effLat point1 + (effLat point2 - effLat point1) * pr
  let heading := calculateDirection point1 point2
  { lng := round6 lngv
    lat := round6 latv
    lon := round6 lngv
    hdg := heading
    cog := heading
    timestamp := point1.postime.orElse (fun _ => point1.timestamp)
    speed := qOr point1.speed (qOr point2.speed 0)
    rot := qOr point1.rot 0
    draught := qOr2 point1.draught point2.draught
    status := qOr2 point1.status point2.status
    dest := sOr2 point1.dest point2.dest
    eta := sOr2 point1.eta point2.eta
    vesselTypeF := sOr2 point1.vesselTypeF point2.vesselTypeF
    flagCtryF := sOr2 point1.flagCtryF point2.flagCtryF }

/-- One entry of the MultiShipManager ships map. -/
structure ShipRec where
  trajectory : List Point
  startTime : Option ℤ
  endTime : Option ℤ
  vesselType : String := ""
  flagCtry : String := ""
  color : String := ""
  dest : String := ""
  iconSize : ℤ := 24
deriving DecidableEq

/-- The MultiShipManager state: its ships map as an association list. -/
structure MultiShipManager where
  ships : List (String × ShipRec)
deriving DecidableEq

/-- Map.get on the ships map. -/
def lookupShip (m : MultiShipManager) (mmsi : String) : Option ShipRec :=
  (m.ships.find? (fun e => e.1 == mmsi)).map (fun e => e.2)

/-- JS `t && time < t` for an optional boundary time. -/
def timeLtOpt (time : ℤ) (o : Option ℤ) : Bool :=
  match o with
  | some v => decide (time < v)
  | none => false

/-- JS `t && time > t` for an optional boundary time. -/
def timeGtOpt (time : ℤ) (o : Option ℤ) : Bool :=
  match o with
  | some v => decide (v < time)
  | none => false

/-- The binary-search loop of getShipPositionAtTime (source lines 635-650),
written with explicit fuel; each iteration strictly shrinks the bracket, so
fuel `trajectory.length` is always sufficient. -/
def binSearchGo (trajectory : List Point) (time : ℤ) : ℕ → ℕ → ℕ → ℕ × ℕ
  | 0, left, right => (left, right)
  | fuel + 1, left, right =>
    if left + 1 < right then
      let mid := (left + right) / 2
      match (trajectory.getD mid dfltPoint).postime with
      | none => binSearchGo trajectory time fuel mid right
      | some midTime =>
        if midTime ≤ time then binSearchGo trajectory time fuel mid right
        else binSearchGo trajectory time fuel left mid
    else (left, right)

/-- Binary search over the whole trajectory: left = 0, right = length - 1. -/
def binSearch (trajectory : List Point) (time : ℤ) : ℕ × ℕ :=
  binSearchGo trajectory time trajectory.length 0 (trajectory.length - 1)

/-- The part of MultiShipManager.getShipPositionAtTime after the boundary and
single-point early returns (source lines 604-746): first/last checks with
direction fix-up, binary search, exact-hit handling, interpolation. -/
noncomputable def gspCore (trajectory : List Point) (time : ℤ) : Position :=
  let p0 := trajectory.getD 0 dfltPoint
  if timeLtOpt time p0.postime then
    let position := formatPosition p0
    if 1 < trajectory.length then
      let d := calculateDirection p0 (trajectory.getD 1 dfltPoint)
      { position with hdg := d, cog := d }
    else position
  else
    let lastIdx := trajectory.length - 1
    let pLast := trajectory.getD lastIdx dfltPoint
    if timeGtOpt time pLast.postime then
      let position := formatPosition pLast
      if 1 < trajectory.length then
        let d := calculateDirection (trajectory.getD (lastIdx - 1) dfltPoint) pLast
        { position with hdg := d, cog := d }
      else position
    else
      let lr := binSearch trajectory time
      let point1 := trajectory.getD lr.1 dfltPoint
      let point2 := trajectory.getD lr.2 dfltPoint
      match point1.postime, point2.postime with
      | none, none =>
        let d := calculateDirection point1 point2
        { formatPosition point1 with hdg := d, cog := d }
      | none, some _ =>
        if lr.2 < trajectory.length - 1 then
          let d := calculateDirection point2 (trajectory.getD (lr.2 + 1) dfltPoint)
          { formatPosition point2 with hdg := d, cog := d }
        else
          let d := calculateDirection point1 point2
          { formatPosition point2 with hdg := d, cog := d }
      | some _, none =>
        let d := calculateDirection point1 point2
        { formatPosition point1 with hdg := d, cog := d }
      | some time1, some time2 =>
        if time = time1 then
          if lr.2 < trajectory.length - 1 then
            let d := calculateDirection point1 (trajectory.getD (lr.2 + 1) dfltPoint)
            { formatPosition point1 with hdg := d, cog := d }
          else if 0 < lr.1 then
            let d := calculateDirection (trajectory.getD (lr.1 - 1) dfltPoint) point1
            { formatPosition point1 with hdg := d, cog := d }
          else
            let d := calculateDirection point1 point2
            { formatPosition point1 with hdg := d, cog := d }
        else if time = time2 then
          if lr.2 < trajectory.length - 1 then
            let d := calculateDirection point2 (trajectory.getD (lr.2 + 1) dfltPoint)
            { formatPosition point2 with hdg := d, cog := d }
          else
            let d := calculateDirection point1 point2
            { formatPosition point2 with hdg := d, cog := d }
        else
          let timeDiff := time2 - time1
          let elapsed := time - time1
          let progress : ℚ := if 0 < timeDiff then (elapsed : ℚ) / (timeDiff : ℚ) else 0
          let clampedProgress := max 0 (min 1 progress)
          interpolatePosition point1 point2 clampedProgress

/-- MultiShipManager.getShipPositionAtTime.  `currentTime = none` models an
unparseable current time (the `!time` early branch of the source). -/
noncomputable def getShipPositionAtTime (m : MultiShipManager) (mmsi : String)
    (currentTime : Option ℤ) : Option Position :=
  match lookupShip m mmsi with
  | none => none
  | some shipData =>
    let trajectory := shipData.trajectory
    if trajectory.length = 0 then none
    else
      match currentTime with
      | none =>
        let position := formatPosition (trajectory.getD 0 dfltPoint)
        if 1 < trajectory.length then
          let d := calculateDirection (trajectory.getD 0 dfltPoint)
            (trajectory.getD 1 dfltPoint)
          some { position with hdg := d, cog := d }
        else some position
      | some time =>
        if timeLtOpt time shipData.startTime then
          some (formatPosition (trajectory.getD 0 dfltPoint))
        else if timeGtOpt time shipData.endTime then
          some (formatPosition (trajectory.getD (trajectory.length - 1) dfltPoint))
        else if trajectory.length = 1 then
          some (formatPosition (trajectory.getD 0 dfltPoint))
        else
          some (gspCore trajectory time)

/-- MultiShipManager.getAllVisibleShipsAtTime. -/
def getAllVisibleShipsAtTime (m : MultiShipManager) (currentTime : Option ℤ)
    (mode : String) (selectedShipId : Option String) : List String :=
  if mode = "single" ∧ sTruthy selectedShipId then
    match selectedShipId with
    | none => []
    | some sid =>
      match lookupShip m sid with
      | none => []
      | some shipData =>
        match currentTime, shipData.startTime, shipData.endTime with
        | some time, some s, some e =>
          if s ≤ time ∧ time ≤ e then [sid] else []
        | _, _, _ => [sid]
  else
    (m.ships.filter (fun x =>
      match x.2.startTime, x.2.endTime, currentTime with
      | some s, some e, some time => decide (s ≤ time ∧ time ≤ e)
      | _, _, _ => true)).map (fun x => x.1)

/-- Leading-integer parse of JS parseInt (decimal radix) on the digit part. -/
def digitsVal (l : List Char) : ℤ :=
  l.foldl (fun acc c => acc * 10 + ((c.toNat - 48 : ℕ) : ℤ)) 0

/-- JS whitespace for trimming purposes (the characters that occur in data). -/
def isJsSpace (c : Char) : Bool :=
  c = ' ' ∨ c = '\t' ∨ c = '\n' ∨ c = '\r'

/-- Parse the unsigned digit prefix; none when there is no leading digit. -/
def jsParseIntDigits (l : List Char) : Option ℤ :=
  let ds := l.takeWhile Char.isDigit
  if ds.isEmpty then none else some (digitsVal ds)

/-- JS parseInt with radix 10 inferred: skip whitespace, optional sign,
longest digit prefix; NaN (here `none`) when no digit is found. -/
def jsParseInt (s : String) : Option ℤ :=
  match s.toList.dropWhile isJsSpace with
  | '-' :: rest => (jsParseIntDigits rest).map (fun n => -n)
  | '+' :: rest => jsParseIntDigits rest
  | l => jsParseIntDigits l

/-- MultiShipManager.calculateIconSize: `parseInt(vesselType) || 50000`, then
the 70000/50000 thresholds. -/
def calculateIconSize (vesselType : String) : ℤ :=
  let typeNum : ℤ :=
    match jsParseInt vesselType with
    | some n => if n = 0 then 50000 else n
    | none => 50000
  if 70000 ≤ typeNum then 36
  else if 50000 ≤ typeNum then 30
  else 24

/-- Proleptic-Gregorian leap year. -/
def isLeapYear (y : ℤ) : Bool :=
  decide ((y % 4 = 0 ∧ y % 100 ≠ 0) ∨ y % 400 = 0)

/-- Days in a month of the proleptic Gregorian calendar. -/
def daysInMonth (y m : ℤ) : ℤ :=
  if m = 2 then (if isLeapYear y then 29 else 28)
  else if m = 4 ∨ m = 6 ∨ m = 9 ∨ m = 11 then 30
  else 31

/-- Days between 1970-01-01 and y-m-d (civil-from-days, Gregorian). -/
def daysFromCivil (y m d : ℤ) : ℤ :=
  let yAdj := if m ≤ 2 then y - 1 else y
  let era := Int.fdiv yAdj 400
  let yoe := yAdj - era * 400
  let mp := Int.emod (m + 9) 12
  let doy := Int.fdiv (153 * mp + 2) 5 + d - 1
  let doe := yoe * 365 + Int.fdiv yoe 4 - Int.fdiv yoe 100 + doy
  era * 146097 + doe - 719468

/-- A valid JS Date value: its (UTC) calendar year and its epoch millis. -/
structure DateVal where
  year : ℤ
  ms : ℤ
deriving DecidableEq

/-- ECMAScript Date parsing restricted to the date-only ISO form YYYY-MM-DD
(interpreted as UTC midnight); every other input is modelled as an invalid
Date.  getFullYear is modelled as the UTC year, exact for this form. -/
def jsDateParse (s : String) : Option DateVal :=
  match s.toList with
  | [y1, y2, y3, y4, h1, mo1, mo2, h2, d1, d2] =>
    if y1.isDigit ∧ y2.isDigit ∧ y3.isDigit ∧ y4.isDigit ∧ h1 = '-' ∧
        mo1.isDigit ∧ mo2.isDigit ∧ h2 = '-' ∧ d1.isDigit ∧ d2.isDigit then
      let y := digitsVal [y1, y2, y3, y4]
      let mo := digitsVal [mo1, mo2]
      let da := digitsVal [d1, d2]
      if 1 ≤ mo ∧ mo ≤ 12 ∧ 1 ≤ da ∧ da ≤ daysInMonth y mo then
        some { year := y, ms := 86400000 * daysFromCivil y mo da }
      else none
    else none
  | _ => none

/-- TimeSyncController.parseTime on a string input: falsy check, then
`new Date(timeStr)` validity. -/
def registryParseTime (s : String) : Option ℤ :=
  if s = "" then none
  else (jsDateParse s).map (fun d => d.ms)

/-- JS String.prototype.trim. -/
def jsTrim (s : String) : String :=
  String.mk (((s.toList.dropWhile isJsSpace).reverse.dropWhile isJsSpace).reverse)

/-- MultiShipManager.parseTime on a string input: falsy check, the
trimmed-placeholder check, Date validity, then the 1900-2100 year guard. -/
def storeParseTime (s : String) : Option ℤ :=
  if s = "" then none
  else
    let trimmed := jsTrim s
    if trimmed = "" ∨ trimmed = "null" ∨ trimmed = "undefined" ∨ trimmed = "NaN" then none
    else
      match jsDateParse s with
      | none => none
      | some d => if d.year < 1900 ∨ 2100 < d.year then none else some d.ms

/-- The TimeSyncController state: global range, current time, and per-ship
time windows (startTime, endTime) as an association list. -/
structure TimeSyncController where
  globalStartTime : Option ℤ := none
  globalEndTime : Option ℤ := none
  currentTime : Option ℤ := none
  ships : List (String × ℤ × ℤ) := []
deriving DecidableEq

/-- TimeSyncController.getActiveShipsAtTime: skip ships with time < startTime
or time > endTime, keep the rest. -/
def getActiveShipsAtTime (c : TimeSyncController) (time : ℤ) : List String :=
  (c.ships.filter (fun e => !decide (time < e.2.1) && !decide (e.2.2 < time))).map
    (fun e => e.1)

/-- TimeSyncController.updateTime on a successfully parsed time: store it,
then clamp below the global start or above the global end when those exist. -/
def updateTime (c : TimeSyncController) (time : ℤ) : TimeSyncController :=
  match c.globalStartTime with
  | some gs =>
    if time < gs then { c with currentTime := some gs }
    else
      match c.globalEndTime with
      | some ge =>
        if ge < time then { c with currentTime := some ge }
        else { c with currentTime := some time }
      | none => { c with currentTime := some time }
  | none =>
    match c.globalEndTime with
    | some ge =>
      if ge < time then { c with currentTime := some ge }
      else { c with currentTime := some time }
    | none => { c with currentTime := some time }

/-- One entry of the per-tick snapshot of updateAllShipsPositions. -/
structure SnapEntry where
  position : Position
  iconSize : ℤ
  color : String
  mmsi : String
  vesselType : String
  flagCtry : String
  dest : String

/-- The body of the snapshot loop of updateAllShipsPositions for one active
ship: skip falsy mmsi, null positions and positions whose lng/lon are both
falsy or whose lat is falsy, then merge ship info. -/
noncomputable def snapshotEntry (m : MultiShipManager) (time : ℤ) (mmsi : String) :
    Option (String × SnapEntry) :=
  if mmsi = "" then none
  else
    match getShipPositionAtTime m mmsi (some time) with
    | none => none
    | some position =>
      if (position.lng = 0 ∧ position.lon = 0) ∨ position.lat = 0 then none
      else
        match lookupShip m mmsi with
        | none => none
        | some shipInfo =>
          some (mmsi,
            { position := position
              iconSize := if shipInfo.iconSize = 0 then 24 else shipInfo.iconSize
              color := if shipInfo.color = "" then "#2196f3" else shipInfo.color
              mmsi := mmsi
              vesselType := shipInfo.vesselType
              flagCtry := shipInfo.flagCtry
              dest := shipInfo.dest })

/-- The snapshot-building loop of updateAllShipsPositions: query the position
of every active ship and collect the surviving entries. -/
noncomputable def buildSnapshot (c : TimeSyncController) (m : MultiShipManager)
    (time : ℤ) : List (String × SnapEntry) :=
  (getActiveShipsAtTime c time).filterMap (snapshotEntry m time)

/-- Convenience constructor for a trajectory point with coordinates and a
parsed timestamp. -/
def mkPt (lon lat : ℚ) (pt : Option ℤ) : Point :=
  { lon := some lon, lat := some lat, postime := pt }

/-- Convenience constructor also carrying a speed attribute. -/
def mkPtS (lon lat : ℚ) (pt : Option ℤ) (speed : ℚ) : Point :=
  { lon := some lon, lat := some lat, postime := pt, speed := some speed }

/-- Registry with one entity whose window is [10, 20]. -/
def reg1 : TimeSyncController := { ships := [("A", 10, 20)] }

/-- Registry used for clamping examples: global range [0, 100]. -/
def reg5 : TimeSyncController := { globalStartTime := some 0, globalEndTime := some 100 }

/-- Store entry with two timestamped points heading due east. -/
def rec2 : ShipRec :=
  { trajectory := [mkPt 0 0 (some 0), mkPt 1 0 (some 100)]
    startTime := some 0
    endTime := some 100 }

/-- Store with the single eastbound entity of rec2. -/
def m2 : MultiShipManager := { ships := [("A", rec2)] }

/-- Store entry whose interpolation at time 1 has progress 1/3 and whose first
point has speed 0 (falsy). -/
def rec3 : ShipRec :=
  { trajectory := [mkPtS 0 10 (some 0) 0, mkPtS 1 10 (some 3) 5]
    startTime := some 0
    endTime := some 3 }

/-- Store with the single entity of rec3. -/
def m3 : MultiShipManager := { ships := [("A", rec3)] }

/-- Store entry whose longitudes are tiny, so 6-decimal rounding moves the
interpolated longitude off the segment. -/
def rec4 : ShipRec :=
  { trajectory := [mkPt (1/10000000) 10 (some 0), mkPt (9/10000000) 10 (some 4)]
    startTime := some 0
    endTime := some 4 }

/-- Store with the single entity of rec4. -/
def m4 : MultiShipManager := { ships := [("A", rec4)] }

/-- A point at the origin. -/
def pOrigin : Point := mkPt 0 0 none

/-- A point one degree north of the origin. -/
def pNorth : Point := mkPt 0 1 none

/-- A point one degree east of the origin. -/
def pEast : Point := mkPt 1 0 none

/-- Registry with one entity active exactly at time 0. -/
def reg8 : TimeSyncController := { ships := [("A", 0, 0)] }

/-- Store entry sitting at latitude 0 (a finite coordinate that is falsy). -/
def rec8 : ShipRec :=
  { trajectory := [mkPt 5 0 (some 0)], startTime := some 0, endTime := some 0 }

/-- Store with the single equator entity of rec8. -/
def m8 : MultiShipManager := { ships := [("A", rec8)] }

/-- A date-only timestamp whose year is below 1900. -/
def isoOld : String := "1800-06-01"

/-- Epoch milliseconds of 1800-06-01T00:00:00Z. -/
def oldMs : ℤ := 86400000 * daysFromCivil 1800 6 1

/-- Registry state after loading one point carrying the isoOld timestamp: the
registry parser accepts it, so the window is [oldMs, oldMs]. -/
def reg10 : TimeSyncController := { ships := [("S1", oldMs, oldMs)] }

/-- Store entry after loading the same point: the store parser rejects the
year-1800 timestamp, so both window ends are null. -/
def rec10 : ShipRec :=
  { trajectory := [mkPt 5 6 none]
    startTime := storeParseTime isoOld
    endTime := storeParseTime isoOld }

/-- Store with the single entity of rec10. -/
def m10 : MultiShipManager := { ships := [("S1", rec10)] }

/-- The left point of the bracketing pair found by the binary search. -/
def bsP1 (trajectory : List Point) (time : ℤ) : Point :=
  trajectory.getD (binSearch trajectory time).1 dfltPoint

/-- The right point of the bracketing pair found by the binary search. -/
def bsP2 (trajectory : List Point) (time : ℤ) : Point :=
  trajectory.getD (binSearch trajectory time).2 dfltPoint

/-- C1: for every loaded entity and every queryable time t,
getActiveShipsAtTime t includes the entity's id if and only if the entity's
computed startTime <= t <= endTime; entities are excluded both before their
start and after their end. -/
theorem c1_getActiveShips_iff (c : TimeSyncController) (mmsi : String) (s e time : ℤ)
    (hnd : (c.ships.map Prod.fst).Nodup) (hmem : (mmsi, s, e) ∈ c.ships) :
    mmsi ∈ getActiveShipsAtTime c time ↔ (s ≤ time ∧ time ≤ e) := by
  unfold getActiveShipsAtTime
  simp only [List.mem_map, List.mem_filter]
  constructor
  · rintro ⟨x, ⟨hx, hcond⟩, hfst⟩
    have hxe : x = (mmsi, s, e) :=
      List.inj_on_of_nodup_map hnd hx hmem (by simpa using hfst)
    subst hxe
    simp only [Bool.and_eq_true, Bool.not_eq_true', decide_eq_false_iff_not] at hcond
    omega
  · intro h
    refine ⟨(mmsi, s, e), ⟨hmem, ?_⟩, rfl⟩
    simp only [Bool.and_eq_true, Bool.not_eq_true', decide_eq_false_iff_not]
    omega

/-- Witness for C1 at a concrete registry and time. -/
theorem c1_getActiveShips_iff_witness :
    "A" ∈ getActiveShipsAtTime reg1 15 ↔ ((10 : ℤ) ≤ 15 ∧ (15 : ℤ) ≤ 20) :=
  c1_getActiveShips_iff reg1 "A" 10 20 15 (by decide) (by decide)

/-- C5: for every parseable time t, updateTime t sets currentTime to t clamped
into [globalStartTime, globalEndTime] when a global range exists (in
particular, updateTime (globalEnd + 1h) leaves currentTime equal to
globalEnd), and stores t unchanged when no global range exists. -/
theorem c5_updateTime_clamps (c : TimeSyncController) (time gs ge : ℤ) :
    (c.globalStartTime = some gs → c.globalEndTime = some ge → gs ≤ ge →
      (updateTime c time).currentTime = some (max gs (min time ge))) ∧
    (c.globalStartTime = none → c.globalEndTime = none →
      (updateTime c time).currentTime = some time) ∧
    (c.globalStartTime = some gs → c.globalEndTime = some ge → gs ≤ ge →
      (updateTime c (ge + 3600000)).currentTime = some ge) := by
  refine ⟨?_, ?_, ?_⟩
  · intro h1 h2 hle
    unfold updateTime
    rw [h1, h2]
    dsimp only
    split_ifs <;> simp only [Option.some.injEq] <;> omega
  · intro h1 h2
    unfold updateTime
    rw [h1, h2]
  · intro h1 h2 hle
    unfold updateTime
    rw [h1, h2]
    dsimp only
    split_ifs <;> simp only [Option.some.injEq] <;> omega

/-- Witness for C5: clamping above the end and the no-range passthrough at
concrete states. -/
theorem c5_updateTime_clamps_witness :
    (updateTime reg5 150).currentTime = some (max 0 (min 150 100)) ∧
      (updateTime reg5 (100 + 3600000)).currentTime = some 100 :=
  ⟨(c5_updateTime_clamps reg5 150 0 100).1 rfl rfl (by decide),
   (c5_updateTime_clamps reg5 0 0 100).2.2 rfl rfl (by decide)⟩

/-- C7 fails as stated: a vessel type code of "0" is parsed to 0, which is
falsy, so the code falls back to 50000 and yields the medium size 30, not the
small size 24 the claim asserts. -/
theorem c7_counterexample :
    calculateIconSize "0" = 30 ∧ (30 : ℤ) ≠ 24 := by
  refine ⟨by decide, by decide⟩

/-- C7 amended: a parsed code >= 70000 yields 36; a parsed code in
[50000, 70000) yields 30; any other nonzero parsed code yields 24; a
non-numeric or missing code, or the code 0, falls back to 50000 and therefore
yields the medium size 30 (not the small size 24). -/
theorem c7_iconSize_thresholds (s : String) (n : ℤ) :
    (jsParseInt s = some n → 70000 ≤ n → calculateIconSize s = 36) ∧
    (jsParseInt s = some n → 50000 ≤ n → n < 70000 → calculateIconSize s = 30) ∧
    (jsParseInt s = some n → n ≠ 0 → n < 50000 → calculateIconSize s = 24) ∧
    (jsParseInt s = none → calculateIconSize s = 30) ∧
    (jsParseInt s = some 0 → calculateIconSize s = 30) := by
  unfold calculateIconSize
  refine ⟨?_, ?_, ?_, ?_, ?_⟩
  · intro h hn; rw [h]; dsimp only; split_ifs <;> omega
  · intro h hn hn2; rw [h]; dsimp only; split_ifs <;> omega
  · intro h hn hn2; rw [h]; dsimp only; split_ifs <;> omega
  · intro h; rw [h]; dsimp only; split_ifs <;> omega
  · intro h; rw [h]; dsimp only; split_ifs <;> omega

/-- Witness for the amended C7 at concrete codes of each class. -/
theorem c7_iconSize_thresholds_witness :
    calculateIconSize "70000" = 36 ∧ calculateIconSize "60000" = 30 ∧
      calculateIconSize "30000" = 24 ∧ calculateIconSize "cargo" = 30 :=
  ⟨(c7_iconSize_thresholds "70000" 70000).1 (by decide) (by decide),
   (c7_iconSize_thresholds "60000" 60000).2.1 (by decide) (by decide) (by decide),
   (c7_iconSize_thresholds "30000" 30000).2.2.1 (by decide) (by decide) (by decide),
   (c7_iconSize_thresholds "cargo" 0).2.2.2.1 (by decide)⟩

/-- C9: the store's timestamp parser returns null for every input whose parsed
calendar year is before 1900 or after 2100, even when the string is an
otherwise valid date, while the registry's timestamp parser accepts such
dates, so the two components classify the same point differently. -/
theorem c9_year_guard (s : String) (d : DateVal)
    (hp : jsDateParse s = some d) (hy : d.year < 1900 ∨ 2100 < d.year) :
    storeParseTime s = none ∧ registryParseTime s = some d.ms := by
  have hne : s ≠ "" := by
    intro h
    rw [h] at hp
    exact Option.noConfusion ((rfl : jsDateParse "" = none) ▸ hp)
  constructor
  · unfold storeParseTime
    rw [if_neg hne]
    dsimp only
    split_ifs with htrim
    · rfl
    · rw [hp]
      dsimp only
      rw [if_pos hy]
  · unfold registryParseTime
    rw [if_neg hne, hp]
    rfl

/-- Witness for C9 at the concrete year-1800 date: the registry accepts it,
the store rejects it. -/
theorem c9_year_guard_witness :
    storeParseTime isoOld = none ∧ registryParseTime isoOld = some oldMs :=
  c9_year_guard isoOld { year := 1800, ms := oldMs } (by decide) (by decide)

/-- C10: in multi mode every loaded entity whose startTime or endTime is null
is reported visible by the store at every query time; concretely, the entity
loaded from a year-1800 timestamp has a null store window, is excluded by the
registry at time 0, yet is visible in the store's own query. -/
theorem c10_nullWindow_visible (m : MultiShipManager) (mmsi : String)
    (sd : ShipRec) (time : ℤ) :
    ((mmsi, sd) ∈ m.ships → (sd.startTime = none ∨ sd.endTime = none) →
      mmsi ∈ getAllVisibleShipsAtTime m (some time) "multi" none) ∧
    storeParseTime isoOld = none ∧
    registryParseTime isoOld = some oldMs ∧
    getActiveShipsAtTime reg10 0 = [] ∧
    getAllVisibleShipsAtTime m10 (some 0) "multi" none = ["S1"] := by
  refine ⟨?_, by decide, by decide, by decide, by decide⟩
  intro hmem hnull
  unfold getAllVisibleShipsAtTime
  rw [if_neg (by simp)]
  simp only [List.mem_map, List.mem_filter]
  refine ⟨(mmsi, sd), ⟨hmem, ?_⟩, rfl⟩
  rcases hnull with h | h
  · rw [h]
  · rw [h]
    cases sd.startTime <;> rfl

/-- Witness for C10 at the concrete store whose entity has a null window. -/
theorem c10_nullWindow_visible_witness :
    "S1" ∈ getAllVisibleShipsAtTime m10 (some 999) "multi" none :=
  (c10_nullWindow_visible m10 "S1" rec10 999).1 (by decide) (by decide)

/-- Helper: a snapshot entry is always tagged with the ship id it was built
from. -/
theorem snapshotEntry_fst (m : MultiShipManager) (time : ℤ) (mmsi : String)
    (pair : String × SnapEntry) (h : snapshotEntry m time mmsi = some pair) :
    pair.1 = mmsi := by
  unfold snapshotEntry at h
  repeat' split at h
  all_goals first
    | exact Option.noConfusion h
    | (cases h; rfl)

/-- Helper: characterization of when the snapshot loop keeps a ship. -/
theorem snapshotEntry_isSome_iff (m : MultiShipManager) (time : ℤ) (mmsi : String) :
    (snapshotEntry m time mmsi).isSome ↔
      (mmsi ≠ "" ∧ ∃ position, getShipPositionAtTime m mmsi (some time) = some position ∧
        ¬((position.lng = 0 ∧ position.lon = 0) ∨ position.lat = 0) ∧
        (lookupShip m mmsi).isSome) := by
  constructor
  · intro h
    unfold snapshotEntry at h
    split_ifs at h with h0
    · simp at h
    · revert h
      cases hg : getShipPositionAtTime m mmsi (some time) with
      | none => intro h; simp at h
      | some position =>
        dsimp only
        split_ifs with hfal
        · intro h; simp at h
        · cases hl : lookupShip m mmsi with
          | none => intro h; simp at h
          | some shipInfo =>
            intro _
            exact ⟨h0, position, rfl, hfal, rfl⟩
  · rintro ⟨h0, position, hg, hfal, hl⟩
    unfold snapshotEntry
    rw [if_neg h0, hg]
    dsimp only
    rw [if_neg hfal]
    rcases Option.isSome_iff_exists.1 hl with ⟨shipInfo, hl2⟩
    rw [hl2]
    rfl

/-- C8 amended: on each tick the snapshot is built by querying the position of
every active entity, and an entity appears in the snapshot exactly when it is
active, its id is non-empty, its position exists in the store, and its
coordinates survive the JS falsiness check: longitude (lng and lon) not both
zero and latitude not zero.  In particular finite zero coordinates are
dropped, not kept. -/
theorem c8_snapshot_membership (c : TimeSyncController) (m : MultiShipManager)
    (time : ℤ) (mmsi : String) :
    mmsi ∈ (buildSnapshot c m time).map Prod.fst ↔
      (mmsi ∈ getActiveShipsAtTime c time ∧ mmsi ≠ "" ∧
       ∃ position, getShipPositionAtTime m mmsi (some time) = some position ∧
         ¬((position.lng = 0 ∧ position.lon = 0) ∨ position.lat = 0) ∧
         (lookupShip m mmsi).isSome) := by
  unfold buildSnapshot
  simp only [List.mem_map, List.mem_filterMap]
  constructor
  · rintro ⟨pair, ⟨a, ha, hf⟩, hfst⟩
    have ha2 : pair.1 = a := snapshotEntry_fst m time a pair hf
    have haa : a = mmsi := by rw [← hfst, ha2]
    subst haa
    have hsome : (snapshotEntry m time a).isSome := by rw [hf]; rfl
    rw [snapshotEntry_isSome_iff] at hsome
    exact ⟨ha, hsome⟩
  · rintro ⟨hact, hrest⟩
    have hsome : (snapshotEntry m time mmsi).isSome :=
      (snapshotEntry_isSome_iff m time mmsi).2 hrest
    rcases Option.isSome_iff_exists.1 hsome with ⟨pair, hpair⟩
    exact ⟨pair, ⟨mmsi, hact, hpair⟩, snapshotEntry_fst m time mmsi pair hpair⟩

/-- C8 fails as stated: the equator entity of m8 is active at time 0 and its
position has finite coordinates (latitude 0, longitude 5), yet it is silently
omitted from the snapshot because the JS check treats latitude 0 as falsy. -/
theorem c8_counterexample :
    getActiveShipsAtTime reg8 0 = ["A"] ∧
    (getShipPositionAtTime m8 "A" (some 0)).map Position.lat = some 0 ∧
    (getShipPositionAtTime m8 "A" (some 0)).map Position.lng = some 5 ∧
    buildSnapshot reg8 m8 0 = [] := by
  exact ⟨by decide, by decide, by decide, rfl⟩

/-- Helper: Math.atan2 always lands in (-pi, pi]. -/
theorem jsAtan2_range (y x : ℝ) : -Real.pi < jsAtan2 y x ∧ jsAtan2 y x ≤ Real.pi := by
  have hpi := Real.pi_pos
  unfold jsAtan2
  split_ifs with h1 h2 h3 h4 h5
  · have ha := Real.arctan_lt_pi_div_two (y / x)
    have hb := Real.neg_pi_div_two_lt_arctan (y / x)
    constructor <;> linarith
  · have hyx : y / x ≤ 0 := div_nonpos_of_nonneg_of_nonpos h3 h2.le
    have ha : Real.arctan (y / x) ≤ 0 := by
      have := Real.arctan_strictMono.monotone hyx
      rwa [Real.arctan_zero] at this
    have hb := Real.neg_pi_div_two_lt_arctan (y / x)
    constructor <;> linarith
  · have hyx : 0 < y / x := div_pos_iff.2 (Or.inr ⟨by linarith, h2⟩)
    have ha : 0 < Real.arctan (y / x) := by
      have := Real.arctan_strictMono hyx
      rwa [Real.arctan_zero] at this
    have hb := Real.arctan_lt_pi_div_two (y / x)
    constructor <;> linarith
  · constructor <;> linarith
  · constructor <;> linarith
  · constructor <;> linarith

/-- Helper: the JS remainder by 360 of a positive number lies in [0, 360). -/
theorem jsFmod_pos_range (v : ℝ) (hv : 0 < v) :
    0 ≤ jsFmod v 360 ∧ jsFmod v 360 < 360 := by
  have h360 : (0 : ℝ) < 360 := by norm_num
  unfold jsFmod rtrunc
  rw [if_pos (le_of_lt (div_pos hv h360))]
  have h1 : (⌊v / 360⌋ : ℝ) * 360 ≤ v := by
    rw [← le_div_iff h360]
    exact Int.floor_le _
  have h2 : v < ((⌊v / 360⌋ : ℝ) + 1) * 360 := by
    rw [← div_lt_iff h360]
    exact Int.lt_floor_add_one _
  constructor <;> linarith

/-- Helper: degrees conversion of an angle in (-pi, pi], shifted by 360, then
reduced by the JS remainder, lands in [0, 360). -/
theorem bearing_deg_range (b : ℝ) (hb1 : -Real.pi < b) (hb2 : b ≤ Real.pi) :
    0 ≤ jsFmod (b * 180 / Real.pi + 360) 360 ∧
      jsFmod (b * 180 / Real.pi + 360) 360 < 360 := by
  have hpi := Real.pi_pos
  have hd1 : -180 < b * 180 / Real.pi := by
    rw [lt_div_iff hpi]
    nlinarith
  exact jsFmod_pos_range _ (by linarith)

/-- Helper: the computed bearing always lies in [0, 360). -/
theorem calculateDirection_range (p1 p2 : Point) :
    0 ≤ calculateDirection p1 p2 ∧ calculateDirection p1 p2 < 360 := by
  unfold calculateDirection
  dsimp only
  split_ifs with hsame
  · norm_num
  · exact bearing_deg_range _ (jsAtan2_range _ _).1 (jsAtan2_range _ _).2

/-- Helper: points with identical effective coordinates get bearing 0. -/
theorem calculateDirection_self (p1 p2 : Point) (hlng : effLng p1 = effLng p2)
    (hlat : effLat p1 = effLat p2) : calculateDirection p1 p2 = 0 := by
  unfold calculateDirection
  dsimp only
  rw [if_pos ⟨hlng, hlat⟩]

/-- Helper: the JS remainder of 360 by 360 is 0. -/
theorem jsFmod_360 : jsFmod (0 + 360 : ℝ) 360 = 0 := by
  unfold jsFmod rtrunc
  rw [if_pos (by norm_num : (0 : ℝ) ≤ (0 + 360) / 360)]
  norm_num

/-- Helper: the JS remainder of 450 by 360 is 90. -/
theorem jsFmod_450 : jsFmod (90 + 360 : ℝ) 360 = 90 := by
  unfold jsFmod rtrunc
  rw [if_pos (by norm_num : (0 : ℝ) ≤ (90 + 360) / 360)]
  have hfl : ⌊(90 + 360 : ℝ) / 360⌋ = 1 := by
    rw [Int.floor_eq_iff]
    norm_num
  rw [hfl]
  norm_num

/-- Helper: sin (pi / 180) is positive. -/
theorem sin_one_deg_pos : 0 < Real.sin (Real.pi / 180) := by
  have hpi := Real.pi_pos
  exact Real.sin_pos_of_pos_of_lt_pi (by positivity)
    (div_lt_self hpi (by norm_num))

/-- Helper: due north between the origin and one degree of northern latitude
yields bearing 0. -/
theorem calculateDirection_north (p1 p2 : Point) (h1 : effLng p1 = 0)
    (h2 : effLat p1 = 0) (h3 : effLng p2 = 0) (h4 : effLat p2 = 1) :
    calculateDirection p1 p2 = 0 := by
  have hpi := Real.pi_pos
  unfold calculateDirection
  dsimp only
  rw [if_neg (by rw [h2, h4]; simp)]
  rw [h1, h2, h3, h4]
  simp only [Rat.cast_zero, Rat.cast_one, zero_mul, zero_div, sub_zero, sub_self,
    one_mul, mul_one, mul_zero, zero_sub, Real.sin_zero, Real.cos_zero]
  have hat : jsAtan2 0 (Real.sin (Real.pi / 180)) = 0 := by
    unfold jsAtan2
    rw [if_pos sin_one_deg_pos]
    rw [zero_div, Real.arctan_zero]
  rw [hat, zero_mul, zero_div]
  exact jsFmod_360

/-- Helper: due east between the origin and one degree of eastern longitude
yields bearing 90. -/
theorem calculateDirection_east (p1 p2 : Point) (h1 : effLng p1 = 0)
    (h2 : effLat p1 = 0) (h3 : effLng p2 = 1) (h4 : effLat p2 = 0) :
    calculateDirection p1 p2 = 90 := by
  have hpi := Real.pi_pos
  unfold calculateDirection
  dsimp only
  rw [if_neg (by rw [h1, h3]; simp)]
  rw [h1, h2, h3, h4]
  simp only [Rat.cast_zero, Rat.cast_one, zero_mul, zero_div, sub_zero,
    one_mul, mul_one, mul_zero, Real.sin_zero, Real.cos_zero]
  have hat : jsAtan2 (Real.sin (Real.pi / 180)) 0 = Real.pi / 2 := by
    unfold jsAtan2
    rw [if_neg (by norm_num), if_neg (by norm_num), if_pos sin_one_deg_pos]
  rw [hat]
  have hdeg : Real.pi / 2 * 180 / Real.pi = 90 := by
    field_simp
    ring
  rw [hdeg]
  exact jsFmod_450

/-- C6: for every pair of points the computed bearing is a number in
[0, 360), is 0 when the two points have identical coordinates, and on the
concrete cases: bearing from (lat 0, lon 0) to (lat 1, lon 0) equals 0 (due
north) and bearing from (lat 0, lon 0) to (lat 0, lon 1) equals 90 (due
east). -/
theorem c6_bearing (p1 p2 : Point) :
    (0 ≤ calculateDirection p1 p2 ∧ calculateDirection p1 p2 < 360) ∧
    (effLng p1 = effLng p2 → effLat p1 = effLat p2 → calculateDirection p1 p2 = 0) ∧
    (effLng p1 = 0 → effLat p1 = 0 → effLng p2 = 0 → effLat p2 = 1 →
      calculateDirection p1 p2 = 0) ∧
    (effLng p1 = 0 → effLat p1 = 0 → effLng p2 = 1 → effLat p2 = 0 →
      calculateDirection p1 p2 = 90) :=
  ⟨calculateDirection_range p1 p2,
   fun h1 h2 => calculateDirection_self p1 p2 h1 h2,
   fun h1 h2 h3 h4 => calculateDirection_north p1 p2 h1 h2 h3 h4,
   fun h1 h2 h3 h4 => calculateDirection_east p1 p2 h1 h2 h3 h4⟩

/-- Witness for C6 at the concrete origin/north/east points. -/
theorem c6_bearing_witness :
    (0 ≤ calculateDirection pOrigin pEast ∧ calculateDirection pOrigin pEast < 360) ∧
    calculateDirection pOrigin pOrigin = 0 ∧
    calculateDirection pOrigin pNorth = 0 ∧
    calculateDirection pOrigin pEast = 90 :=
  ⟨(c6_bearing pOrigin pEast).1,
   (c6_bearing pOrigin pOrigin).2.1 rfl rfl,
   (c6_bearing pOrigin pNorth).2.2.1 (by decide) (by decide) (by decide) (by decide),
   (c6_bearing pOrigin pEast).2.2.2 (by decide) (by decide) (by decide) (by decide)⟩

/-- C2 (code bug): for the eastbound entity of m2, a query strictly before the
first timestamped point and a query strictly after the last one both return
heading 0, because the early boundary returns of getShipPositionAtTime
(source lines 592-597) bypass the later direction-computing blocks (source
lines 608-632) whose comments promise bearing(first, second) resp.
bearing(secondToLast, last); that bearing here is 90, not 0. -/
theorem c2_boundary_heading_bug :
    (getShipPositionAtTime m2 "A" (some (-50))).map Position.hdg = some 0 ∧
    (getShipPositionAtTime m2 "A" (some 200)).map Position.hdg = some 0 ∧
    calculateDirection (mkPt 0 0 (some 0)) (mkPt 1 0 (some 100)) = 90 ∧
    (0 : ℝ) ≠ 90 := by
  refine ⟨rfl, rfl, ?_, by norm_num⟩
  exact calculateDirection_east _ _ (by decide) (by decide) (by decide) (by decide)

/-- Helper: the binary-search loop always ends on an adjacent pair inside the
initial bracket, provided the fuel covers the bracket width. -/
theorem binSearchGo_adjacent (trajectory : List Point) (time : ℤ) :
    ∀ fuel left right left2 right2,
      binSearchGo trajectory time fuel left right = (left2, right2) →
      left < right → right - left ≤ fuel →
      right2 = left2 + 1 ∧ left ≤ left2 ∧ right2 ≤ right := by
  intro fuel
  induction fuel with
  | zero =>
    intro l r l2 r2 heq hlr hf
    exact absurd hlr (by omega)
  | succ n ih =>
    intro l r l2 r2 heq hlr hf
    simp only [binSearchGo] at heq
    by_cases hcond : l + 1 < r
    · rw [if_pos hcond] at heq
      have hmid1 : l < (l + r) / 2 := by omega
      have hmid2 : (l + r) / 2 < r := by omega
      revert heq
      cases hpt : (trajectory.getD ((l + r) / 2) dfltPoint).postime with
      | none =>
        intro heq
        have h := ih ((l + r) / 2) r l2 r2 heq hmid2 (by omega)
        exact ⟨h.1, le_trans hmid1.le h.2.1, h.2.2⟩
      | some midTime =>
        intro heq
        dsimp only at heq
        by_cases hle : midTime ≤ time
        · rw [if_pos hle] at heq
          have h := ih ((l + r) / 2) r l2 r2 heq hmid2 (by omega)
          exact ⟨h.1, le_trans hmid1.le h.2.1, h.2.2⟩
        · rw [if_neg hle] at heq
          have h := ih l ((l + r) / 2) l2 r2 heq hmid1 (by omega)
          exact ⟨h.1, h.2.1, le_trans h.2.2 hmid2.le⟩
    · rw [if_neg hcond] at heq
      injection heq with e1 e2
      subst e1
      subst e2
      exact ⟨by omega, le_refl _, le_refl _⟩

/-- Helper: on a trajectory of length at least 2 the binary search returns an
adjacent pair with the right index at most length - 1. -/
theorem binSearch_adjacent (trajectory : List Point) (time : ℤ)
    (h : 2 ≤ trajectory.length) :
    (binSearch trajectory time).2 = (binSearch trajectory time).1 + 1 ∧
      (binSearch trajectory time).2 ≤ trajectory.length - 1 := by
  have hh := binSearchGo_adjacent trajectory time trajectory.length 0
    (trajectory.length - 1) (binSearch trajectory time).1 (binSearch trajectory time).2
    rfl (by omega) (by omega)
  exact ⟨hh.1, hh.2.2⟩

/-- Helper: a getD read inside the list bounds is a member of the list. -/
theorem getD_mem_of_lt (l : List Point) (i : ℕ) (h : i < l.length) :
    l.getD i dfltPoint ∈ l := by
  rw [List.getD_eq_getElem l dfltPoint h]
  exact List.getElem_mem h

/-- Helper: a query inside the entity's non-null window on a trajectory of
length at least 2 runs the core lookup (the early boundary and single-point
returns do not fire). -/
theorem gsp_in_range (m : MultiShipManager) (mmsi : String) (sd : ShipRec)
    (time s e : ℤ) (hlk : lookupShip m mmsi = some sd)
    (hst : sd.startTime = some s) (het : sd.endTime = some e)
    (hs : s ≤ time) (he : time ≤ e) (hlen : 2 ≤ sd.trajectory.length) :
    getShipPositionAtTime m mmsi (some time) = some (gspCore sd.trajectory time) := by
  unfold getShipPositionAtTime
  rw [hlk]
  dsimp only
  have hA : timeLtOpt time sd.startTime = false := by
    rw [hst]
    simp only [timeLtOpt, decide_eq_false_iff_not]
    omega
  have hB : timeGtOpt time sd.endTime = false := by
    rw [het]
    simp only [timeGtOpt, decide_eq_false_iff_not]
    omega
  rw [if_neg (by omega : ¬ sd.trajectory.length = 0), hA,
    if_neg Bool.false_ne_true, hB, if_neg Bool.false_ne_true,
    if_neg (by omega : ¬ sd.trajectory.length = 1)]

/-- Helper: clamping to [0, 1] is idempotent. -/
theorem clamp01_idem (x : ℚ) : max 0 (min 1 (max 0 (min 1 x))) = max 0 (min 1 x) := by
  have h0 : (0 : ℚ) ≤ max 0 (min 1 x) := le_max_left _ _
  have h1 : max 0 (min 1 x) ≤ 1 := max_le (by norm_num) (min_le_left _ _)
  rw [min_eq_right h1, max_eq_right h0]

/-- Helper: when the query time lies strictly between the timestamps of the
bracketing pair found by the binary search, the core lookup returns the
interpolation of that pair at the clamped progress. -/
theorem gspCore_interp (trajectory : List Point) (time t1 t2 : ℤ)
    (hfirst : ∀ ft, (trajectory.getD 0 dfltPoint).postime = some ft → ft ≤ time)
    (hlast : ∀ lt2, (trajectory.getD (trajectory.length - 1) dfltPoint).postime = some lt2 →
      time ≤ lt2)
    (hp1 : (bsP1 trajectory time).postime = some t1)
    (hp2 : (bsP2 trajectory time).postime = some t2)
    (h1 : t1 < time) (h2 : time < t2) :
    gspCore trajectory time =
      interpolatePosition (bsP1 trajectory time) (bsP2 trajectory time)
        (max 0 (min 1 (((time - t1 : ℤ) : ℚ) / ((t2 - t1 : ℤ) : ℚ)))) := by
  have hp1x : (trajectory.getD (binSearch trajectory time).1 dfltPoint).postime = some t1 := hp1
  have hp2x : (trajectory.getD (binSearch trajectory time).2 dfltPoint).postime = some t2 := hp2
  have hA : timeLtOpt time (trajectory.getD 0 dfltPoint).postime = false := by
    cases hq : (trajectory.getD 0 dfltPoint).postime with
    | none => rfl
    | some ft =>
      have := hfirst ft hq
      simp only [timeLtOpt, decide_eq_false_iff_not]
      omega
  have hB : timeGtOpt time (trajectory.getD (trajectory.length - 1) dfltPoint).postime = false := by
    cases hq : (trajectory.getD (trajectory.length - 1) dfltPoint).postime with
    | none => rfl
    | some lt2 =>
      have := hlast lt2 hq
      simp only [timeGtOpt, decide_eq_false_iff_not]
      omega
  unfold gspCore
  dsimp only
  rw [hA, if_neg Bool.false_ne_true, hB, if_neg Bool.false_ne_true, hp1x, hp2x]
  dsimp only
  rw [if_neg (by omega : ¬ time = t1), if_neg (by omega : ¬ time = t2),
    if_pos (by omega : (0 : ℤ) < t2 - t1)]
  rfl

/-- C3 amended: for a query time strictly between the timestamps t1 < t < t2
of the bracketing pair (p1, p2) found by the binary search, the returned
longitude and latitude are the linear interpolation by
progress = (t - t1) / (t2 - t1), clamped to [0, 1], ROUNDED TO 6 DECIMAL
PLACES (toFixed(6)); the heading equals bearing(p1, p2), constant across the
segment; and the non-positional attributes are taken from p1, falling back to
p2 when p1's value is absent OR FALSY (so a present speed of 0 on p1 also
falls back to p2). -/
theorem c3_interpolation (m : MultiShipManager) (mmsi : String) (sd : ShipRec)
    (time s e t1 t2 : ℤ) (hlk : lookupShip m mmsi = some sd)
    (hst : sd.startTime = some s) (het : sd.endTime = some e)
    (hs : s ≤ time) (he : time ≤ e) (hlen : 2 ≤ sd.trajectory.length)
    (hfirst : ∀ ft, (sd.trajectory.getD 0 dfltPoint).postime = some ft → ft ≤ time)
    (hlast : ∀ lt2, (sd.trajectory.getD (sd.trajectory.length - 1) dfltPoint).postime =
      some lt2 → time ≤ lt2)
    (hp1 : (bsP1 sd.trajectory time).postime = some t1)
    (hp2 : (bsP2 sd.trajectory time).postime = some t2)
    (h1 : t1 < time) (h2 : time < t2) :
    ∃ position, getShipPositionAtTime m mmsi (some time) = some position ∧
      position.lng = round6 (effLng (bsP1 sd.trajectory time) +
        (effLng (bsP2 sd.trajectory time) - effLng (bsP1 sd.trajectory time)) *
        max 0 (min 1 (((time - t1 : ℤ) : ℚ) / ((t2 - t1 : ℤ) : ℚ)))) ∧
      position.lat = round6 (effLat (bsP1 sd.trajectory time) +
        (effLat (bsP2 sd.trajectory time) - effLat (bsP1 sd.trajectory time)) *
        max 0 (min 1 (((time - t1 : ℤ) : ℚ) / ((t2 - t1 : ℤ) : ℚ)))) ∧
      position.lon = position.lng ∧
      position.hdg = calculateDirection (bsP1 sd.trajectory time) (bsP2 sd.trajectory time) ∧
      position.cog = position.hdg ∧
      position.speed = qOr (bsP1 sd.trajectory time).speed
        (qOr (bsP2 sd.trajectory time).speed 0) ∧
      position.draught = qOr2 (bsP1 sd.trajectory time).draught
        (bsP2 sd.trajectory time).draught ∧
      position.status = qOr2 (bsP1 sd.trajectory time).status
        (bsP2 sd.trajectory time).status ∧
      position.dest = sOr2 (bsP1 sd.trajectory time).dest (bsP2 sd.trajectory time).dest ∧
      position.eta = sOr2 (bsP1 sd.trajectory time).eta (bsP2 sd.trajectory time).eta := by
  rw [gsp_in_range m mmsi sd time s e hlk hst het hs he hlen,
    gspCore_interp sd.trajectory time t1 t2 hfirst hlast hp1 hp2 h1 h2]
  refine ⟨_, rfl, ?_, ?_, rfl, rfl, rfl, rfl, rfl, rfl, rfl, rfl⟩
  · dsimp only [interpolatePosition]
    rw [clamp01_idem]
  · dsimp only [interpolatePosition]
    rw [clamp01_idem]

/-- Witness for the amended C3 at the concrete store m3, query time 1,
bracketed by timestamps 0 and 3. -/
theorem c3_interpolation_witness :
    ∃ position, getShipPositionAtTime m3 "A" (some 1) = some position ∧
      position.lng = round6 (effLng (bsP1 rec3.trajectory 1) +
        (effLng (bsP2 rec3.trajectory 1) - effLng (bsP1 rec3.trajectory 1)) *
        max 0 (min 1 (((1 - 0 : ℤ) : ℚ) / ((3 - 0 : ℤ) : ℚ)))) ∧
      position.lat = round6 (effLat (bsP1 rec3.trajectory 1) +
        (effLat (bsP2 rec3.trajectory 1) - effLat (bsP1 rec3.trajectory 1)) *
        max 0 (min 1 (((1 - 0 : ℤ) : ℚ) / ((3 - 0 : ℤ) : ℚ)))) ∧
      position.lon = position.lng ∧
      position.hdg = calculateDirection (bsP1 rec3.trajectory 1) (bsP2 rec3.trajectory 1) ∧
      position.cog = position.hdg ∧
      position.speed = qOr (bsP1 rec3.trajectory 1).speed
        (qOr (bsP2 rec3.trajectory 1).speed 0) ∧
      position.draught = qOr2 (bsP1 rec3.trajectory 1).draught (bsP2 rec3.trajectory 1).draught ∧
      position.status = qOr2 (bsP1 rec3.trajectory 1).status (bsP2 rec3.trajectory 1).status ∧
      position.dest = sOr2 (bsP1 rec3.trajectory 1).dest (bsP2 rec3.trajectory 1).dest ∧
      position.eta = sOr2 (bsP1 rec3.trajectory 1).eta (bsP2 rec3.trajectory 1).eta :=
  c3_interpolation m3 "A" rec3 1 0 3 0 3 (by decide) rfl rfl (by decide) (by decide)
    (by decide)
    (by intro ft hft; injection hft with h; omega)
    (by intro lt2 hlt2; injection hlt2 with h; omega)
    (by decide) (by decide) (by decide) (by decide)

/-- C3 fails as stated: for the entity of m3 at query time 1 the progress is
1/3, but the returned longitude is the 6-decimal rounding 333333/1000000 of
the exact interpolation 1/3, not 1/3 itself; and although the first point
carries speed 0, the returned speed is 5, taken from the second point because
0 is falsy. -/
theorem c3_counterexample :
    (getShipPositionAtTime m3 "A" (some 1)).map Position.lng = some (333333 / 1000000) ∧
    (333333 / 1000000 : ℚ) ≠ 0 + (1 - 0) * (((1 : ℚ) - 0) / (3 - 0)) ∧
    (getShipPositionAtTime m3 "A" (some 1)).map Position.speed = some 5 ∧
    (mkPtS 0 10 (some 0) 0).speed = some 0 := by
  have hq := gsp_in_range m3 "A" rec3 1 0 3 rfl rfl rfl (by decide) (by decide) (by decide)
  have hc := gspCore_interp rec3.trajectory 1 0 3
    (by intro ft hft; injection hft with h; omega)
    (by intro lt2 hlt2; injection hlt2 with h; omega)
    (by decide) (by decide) (by decide) (by decide)
  have e1 : bsP1 rec3.trajectory 1 = mkPtS 0 10 (some 0) 0 := rfl
  have e2 : bsP2 rec3.trajectory 1 = mkPtS 1 10 (some 3) 5 := rfl
  rw [hc, e1, e2] at hq
  refine ⟨?_, by norm_num, ?_, rfl⟩
  · rw [hq]
    simp only [Option.map_some']
    congr 1
    dsimp only [interpolatePosition, mkPtS, effLng, qOr, round6]
    norm_num
    have hfl : ⌊(2000003 : ℚ) / 6⌋ = 333333 := by
      rw [Int.floor_eq_iff]
      constructor <;> norm_num
    rw [round_eq, show (1000000 : ℚ) / 3 + 1 / 2 = 2000003 / 6 by norm_num, hfl]
    norm_num
  · rw [hq]
    simp only [Option.map_some']
    rfl

/-- Helper: on a trajectory of length at least 2 the core lookup's coordinates
are either exactly those of some trajectory point or the 6-decimal rounding of
a convex combination of a consecutive pair's coordinates. -/
theorem gspCore_coords (trajectory : List Point) (time : ℤ)
    (hlen : 2 ≤ trajectory.length) :
    (∃ p ∈ trajectory, (gspCore trajectory time).lng = effLng p ∧
        (gspCore trajectory time).lat = effLat p) ∨
    (∃ i, i + 1 < trajectory.length ∧ ∃ q : ℚ, 0 ≤ q ∧ q ≤ 1 ∧
      (gspCore trajectory time).lng = round6 (effLng (trajectory.getD i dfltPoint) +
        (effLng (trajectory.getD (i + 1) dfltPoint) -
         effLng (trajectory.getD i dfltPoint)) * q) ∧
      (gspCore trajectory time).lat = round6 (effLat (trajectory.getD i dfltPoint) +
        (effLat (trajectory.getD (i + 1) dfltPoint) -
         effLat (trajectory.getD i dfltPoint)) * q)) := by
  by_cases hA : timeLtOpt time (trajectory.getD 0 dfltPoint).postime = true
  · refine Or.inl ⟨trajectory.getD 0 dfltPoint, getD_mem_of_lt _ _ (by omega), ?_, ?_⟩ <;>
      (unfold gspCore; dsimp only; rw [if_pos hA]; split_ifs <;> rfl)
  · by_cases hB : timeGtOpt time
      (trajectory.getD (trajectory.length - 1) dfltPoint).postime = true
    · refine Or.inl ⟨trajectory.getD (trajectory.length - 1) dfltPoint,
        getD_mem_of_lt _ _ (by omega), ?_, ?_⟩ <;>
        (unfold gspCore; dsimp only; rw [if_neg hA, if_pos hB]; split_ifs <;> rfl)
    · obtain ⟨hadj, hmax⟩ := binSearch_adjacent trajectory time hlen
      have hl1 : (binSearch trajectory time).1 < trajectory.length := by omega
      have hl2 : (binSearch trajectory time).2 < trajectory.length := by omega
      cases hq1 : (trajectory.getD (binSearch trajectory time).1 dfltPoint).postime with
      | none =>
        cases hq2 : (trajectory.getD (binSearch trajectory time).2 dfltPoint).postime with
        | none =>
          refine Or.inl ⟨trajectory.getD (binSearch trajectory time).1 dfltPoint,
            getD_mem_of_lt _ _ hl1, ?_, ?_⟩ <;>
            (unfold gspCore; dsimp only; rw [if_neg hA, if_neg hB, hq1, hq2]; rfl)
        | some t2 =>
          refine Or.inl ⟨trajectory.getD (binSearch trajectory time).2 dfltPoint,
            getD_mem_of_lt _ _ hl2, ?_, ?_⟩ <;>
            (unfold gspCore; dsimp only; rw [if_neg hA, if_neg hB, hq1, hq2];
              dsimp only; split_ifs <;> rfl)
      | some t1 =>
        cases hq2 : (trajectory.getD (binSearch trajectory time).2 dfltPoint).postime with
        | none =>
          refine Or.inl ⟨trajectory.getD (binSearch trajectory time).1 dfltPoint,
            getD_mem_of_lt _ _ hl1, ?_, ?_⟩ <;>
            (unfold gspCore; dsimp only; rw [if_neg hA, if_neg hB, hq1, hq2]; rfl)
        | some t2 =>
          by_cases he1 : time = t1
          · refine Or.inl ⟨trajectory.getD (binSearch trajectory time).1 dfltPoint,
              getD_mem_of_lt _ _ hl1, ?_, ?_⟩ <;>
              (unfold gspCore; dsimp only; rw [if_neg hA, if_neg hB, hq1, hq2];
                dsimp only; rw [if_pos he1]; split_ifs <;> rfl)
          · by_cases he2 : time = t2
            · refine Or.inl ⟨trajectory.getD (binSearch trajectory time).2 dfltPoint,
                getD_mem_of_lt _ _ hl2, ?_, ?_⟩ <;>
                (unfold gspCore; dsimp only; rw [if_neg hA, if_neg hB, hq1, hq2];
                  dsimp only; rw [if_neg he1, if_pos he2]; split_ifs <;> rfl)
            · have hgeq : gspCore trajectory time =
                  interpolatePosition (trajectory.getD (binSearch trajectory time).1 dfltPoint)
                    (trajectory.getD (binSearch trajectory time).2 dfltPoint)
                    (max 0 (min 1 (if 0 < t2 - t1 then
                      ((time - t1 : ℤ) : ℚ) / ((t2 - t1 : ℤ) : ℚ) else 0))) := by
                unfold gspCore
                dsimp only
                rw [if_neg hA, if_neg hB, hq1, hq2]
                dsimp only
                rw [if_neg he1, if_neg he2]
              refine Or.inr ⟨(binSearch trajectory time).1, by omega,
                max 0 (min 1 (max 0 (min 1 (if 0 < t2 - t1 then
                  ((time - t1 : ℤ) : ℚ) / ((t2 - t1 : ℤ) : ℚ) else 0)))),
                le_max_left _ _, max_le (by norm_num) (min_le_left _ _), ?_, ?_⟩ <;>
                (rw [hgeq, ← hadj]; rfl)

/-- C4 amended: for any entity with at least two timestamped points (non-null
startTime and endTime on a trajectory of length at least 2) and any time t
within [startTime, endTime], the returned coordinates are either exactly those
of some trajectory point, or, per coordinate, the 6-DECIMAL ROUNDING
(toFixed(6)) of a convex combination of a consecutive pair's coordinates; the
rounding can move the value off the exact segment. -/
theorem c4_segment (m : MultiShipManager) (mmsi : String) (sd : ShipRec)
    (time s e : ℤ) (hlk : lookupShip m mmsi = some sd)
    (hst : sd.startTime = some s) (het : sd.endTime = some e)
    (hs : s ≤ time) (he : time ≤ e) (hlen : 2 ≤ sd.trajectory.length) :
    ∃ position, getShipPositionAtTime m mmsi (some time) = some position ∧
      ((∃ p ∈ sd.trajectory, position.lng = effLng p ∧ position.lat = effLat p) ∨
       (∃ i, i + 1 < sd.trajectory.length ∧ ∃ q : ℚ, 0 ≤ q ∧ q ≤ 1 ∧
         position.lng = round6 (effLng (sd.trajectory.getD i dfltPoint) +
           (effLng (sd.trajectory.getD (i + 1) dfltPoint) -
            effLng (sd.trajectory.getD i dfltPoint)) * q) ∧
         position.lat = round6 (effLat (sd.trajectory.getD i dfltPoint) +
           (effLat (sd.trajectory.getD (i + 1) dfltPoint) -
            effLat (sd.trajectory.getD i dfltPoint)) * q))) := by
  rw [gsp_in_range m mmsi sd time s e hlk hst het hs he hlen]
  exact ⟨gspCore sd.trajectory time, rfl, gspCore_coords sd.trajectory time hlen⟩

/-- Witness for the amended C4 at the concrete store m4 and query time 1. -/
theorem c4_segment_witness :
    ∃ position, getShipPositionAtTime m4 "A" (some 1) = some position ∧
      ((∃ p ∈ rec4.trajectory, position.lng = effLng p ∧ position.lat = effLat p) ∨
       (∃ i, i + 1 < rec4.trajectory.length ∧ ∃ q : ℚ, 0 ≤ q ∧ q ≤ 1 ∧
         position.lng = round6 (effLng (rec4.trajectory.getD i dfltPoint) +
           (effLng (rec4.trajectory.getD (i + 1) dfltPoint) -
            effLng (rec4.trajectory.getD i dfltPoint)) * q) ∧
         position.lat = round6 (effLat (rec4.trajectory.getD i dfltPoint) +
           (effLat (rec4.trajectory.getD (i + 1) dfltPoint) -
            effLat (rec4.trajectory.getD i dfltPoint)) * q))) :=
  c4_segment m4 "A" rec4 1 0 4 rfl rfl rfl (by decide) (by decide) (by decide)

/-- C4 fails as stated: for the entity of m4 (longitudes 1/10000000 and
9/10000000) at query time 1 the interpolated longitude 3/10000000 rounds to 0,
which is not a convex combination of the only consecutive pair's longitudes,
so the returned point is off the exact segment. -/
theorem c4_counterexample :
    (getShipPositionAtTime m4 "A" (some 1)).map Position.lng = some 0 ∧
    ¬ ∃ q : ℚ, 0 ≤ q ∧ q ≤ 1 ∧
      1 / 10000000 + (9 / 10000000 - 1 / 10000000) * q = 0 := by
  constructor
  · have hq := gsp_in_range m4 "A" rec4 1 0 4 rfl rfl rfl (by decide) (by decide) (by decide)
    have hc := gspCore_interp rec4.trajectory 1 0 4
      (by intro ft hft; injection hft with h; omega)
      (by intro lt2 hlt2; injection hlt2 with h; omega)
      (by decide) (by decide) (by decide) (by decide)
    have e1 : bsP1 rec4.trajectory 1 = mkPt (1 / 10000000) 10 (some 0) := rfl
    have e2 : bsP2 rec4.trajectory 1 = mkPt (9 / 10000000) 10 (some 4) := rfl
    rw [hc, e1, e2] at hq
    rw [hq]
    simp only [Option.map_some']
    congr 1
    dsimp only [interpolatePosition, mkPt, effLng, qOr, round6]
    norm_num
  · rintro ⟨q, h0, h1, heq⟩
    nlinarith

end Ship
